import Mathlib

/-!
Verification of the tank-simulator reading pipeline.

The numeric model uses exact rationals: JS numbers are modelled by ℚ and
the constant `Math.PI` by its exact double value.  JS `Math.round`
rounds half-way cases toward positive infinity, which on ℚ is
`⌊x + 1/2⌋`.  Repository rows are modelled by lists; the generated
`timestamp` of a persisted reading is its insertion index, so timestamps
are strictly increasing in insertion order and the store is always
sorted by timestamp ascending.
-/

/-- The exact rational value of the IEEE-754 double `Math.PI` used by
`calculateCylindricalVolume`. -/
def mathPI : ℚ := 884279719003555 / 281474976710656

/-- JS `Math.round(x * 100) / 100` (two decimal places). -/
def round2 (x : ℚ) : ℚ := (⌊x * 100 + 1 / 2⌋ : ℤ) / 100

/-- JS `Math.round(x * 1000) / 1000` (three decimal places). -/
def round3 (x : ℚ) : ℚ := (⌊x * 1000 + 1 / 2⌋ : ℤ) / 1000

/-- A tank row (prisma model `Tank`; the fields the pipeline reads).
`getAllTanks` returns rows ordered by creation time, so a list of tanks
is always taken in creation order. -/
structure Tank where
  id : String
  name : String
  diameter : ℚ
  height : ℚ
  capacity : ℚ
  sensorHeight : ℚ
deriving DecidableEq

/-- The payload of a reading before the repository assigns a timestamp
(TS type `Omit FuelReading id timestamp`). -/
structure ReadingData where
  tankId : String
  distanceToFuel : ℚ
  fuelLevelLiters : ℚ
  fuelLevelPercentage : ℚ
  fuelHeight : ℚ
deriving DecidableEq

/-- A persisted reading row (prisma model `FuelReading`); the timestamp
is the insertion index assigned by `addFuelReading`. -/
structure FuelReading where
  tankId : String
  distanceToFuel : ℚ
  fuelLevelLiters : ℚ
  fuelLevelPercentage : ℚ
  fuelHeight : ℚ
  timestamp : ℕ
deriving DecidableEq

/-- The payload part of a persisted reading. -/
def FuelReading.data (r : FuelReading) : ReadingData :=
  { tankId := r.tankId
    distanceToFuel := r.distanceToFuel
    fuelLevelLiters := r.fuelLevelLiters
    fuelLevelPercentage := r.fuelLevelPercentage
    fuelHeight := r.fuelHeight }

/-- Attach the repository-assigned timestamp to a payload. -/
def ReadingData.withTimestamp (d : ReadingData) (t : ℕ) : FuelReading :=
  { tankId := d.tankId
    distanceToFuel := d.distanceToFuel
    fuelLevelLiters := d.fuelLevelLiters
    fuelLevelPercentage := d.fuelLevelPercentage
    fuelHeight := d.fuelHeight
    timestamp := t }

/-- The four fuel statuses returned by `getFuelStatus`. -/
inductive FuelStatus
  | normal
  | low
  | critical
  | full
deriving DecidableEq

/-- `getFuelStatus` (fuel-tank.service, lines 161-168). -/
def getFuelStatus (percentage : ℚ) : FuelStatus :=
  if percentage ≥ 95 then .full
  else if percentage < 10 then .critical
  else if percentage < 25 then .low
  else .normal

/-- The fullness order on statuses: critical < low < normal < full. -/
def statusRank : FuelStatus → ℕ
  | .critical => 0
  | .low => 1
  | .normal => 2
  | .full => 3

/-- `calculateCylindricalVolume` (fuel-tank.service, lines 133-140). -/
def calculateCylindricalVolume (fuelHeight : ℚ) (diameter : ℚ) : ℚ :=
  let radius := diameter / 2
  let volume := mathPI * radius ^ 2 * fuelHeight
  volume * 1000

/-- `calculateFuelLevel` (fuel-tank.service, lines 110-131). -/
def calculateFuelLevel (distanceToFuel : ℚ) (tank : Tank) : ReadingData :=
  let distanceToFuelMeters := distanceToFuel / 100
  let fuelHeight := tank.sensorHeight - distanceToFuelMeters
  let actualFuelHeight := max 0 (min fuelHeight tank.height)
  let fuelVolumeLiters := calculateCylindricalVolume actualFuelHeight tank.diameter
  let fuelLevelPercentage := fuelVolumeLiters / tank.capacity * 100
  { tankId := tank.id
    distanceToFuel := round2 distanceToFuel
    fuelLevelLiters := round2 fuelVolumeLiters
    fuelLevelPercentage := round2 fuelLevelPercentage
    fuelHeight := round3 actualFuelHeight }

/-- The simulator scenarios (sensor-simulation.service). -/
inductive Scenario
  | consumption
  | refill
  | stable
  | emergency
deriving DecidableEq

/-- `determineScenario` (sensor-simulation.service, lines 19-42); the
uniform draw taken from `Math.random()` is passed in as `random`. -/
def determineScenario (tankId : String) (currentFuelHeight tankHeight : ℚ)
    (random : ℚ) : Scenario :=
  let fuelPercentage := currentFuelHeight / tankHeight * 100
  if fuelPercentage < 10 then
    if random < 0.7 then .refill else .emergency
  else if fuelPercentage < 25 then
    if random < 0.6 then .refill else .consumption
  else if fuelPercentage > 75 then
    if random < 0.8 then .consumption else .stable
  else if random < 0.5 then .consumption
  else if random < 0.8 then .stable
  else .refill

/-- `generateSensorReading` (sensor-simulation.service, lines 44-84);
`u1` is the draw used by the per-scenario height delta and `u2` the
draw used by the measurement noise. -/
def generateSensorReading (scenario : Scenario) (currentFuelHeight tankHeight : ℚ)
    (u1 u2 : ℚ) : ℚ :=
  let sensorHeight := tankHeight
  let newFuelHeight :=
    match scenario with
    | .consumption => max 0 (currentFuelHeight - (0.005 + u1 * 0.025))
    | .refill => min tankHeight (currentFuelHeight + (0.02 + u1 * 0.08))
    | .stable => max 0 (min tankHeight (currentFuelHeight + (u1 - 0.5) * 0.01))
    | .emergency => max 0 (currentFuelHeight - u1 * 0.005)
  let distanceToFuel := (sensorHeight - newFuelHeight) * 100
  let noise := (u2 - 0.5) * 2
  max 0 (min (sensorHeight * 100) (distanceToFuel + noise))

/-- `simulateSensorReading` (sensor-simulation.service, lines 5-17);
`u0` is the scenario draw, `u1` the delta draw, `u2` the noise draw. -/
def simulateSensorReading (tankId : String) (currentFuelHeight tankHeight : ℚ)
    (u0 u1 u2 : ℚ) : ℚ :=
  let scenario := determineScenario tankId currentFuelHeight tankHeight u0
  generateSensorReading scenario currentFuelHeight tankHeight u1 u2

/-- `getInitialFuelLevel` (sensor-simulation.service, lines 86-96);
`u` is the uniform draw choosing the initial percentage in [20, 80). -/
def getInitialFuelLevel (tankHeight : ℚ) (u : ℚ) : ℚ :=
  let minPercentage : ℚ := 20
  let maxPercentage : ℚ := 80
  let percentage := minPercentage + u * (maxPercentage - minPercentage)
  let fuelHeight := percentage / 100 * tankHeight
  (tankHeight - fuelHeight) * 100

/-- `getTankById` (database.service, lines 10-14): `findUnique` on the
unique id column over the tank table. -/
def getTankById (id : String) (tanks : List Tank) : Option Tank :=
  tanks.find? (fun t => t.id = id)

/-- `getLatestReadingForTank` (database.service, lines 30-35):
`findFirst` on the rows of one tank ordered by timestamp descending.
The store is kept in insertion order with strictly increasing
timestamps, so ordering descending and taking the first row is taking
the head of the reversed filtered list. -/
def getLatestReadingForTank (tankId : String) (store : List FuelReading) :
    Option FuelReading :=
  ((store.filter (fun r => r.tankId = tankId)).reverse).head?

/-- `addFuelReading` (database.service, lines 22-28): `create` appends
a row and assigns it the next timestamp (modelled as the insertion
index); returns the new store and the created row. -/
def addFuelReading (store : List FuelReading) (data : ReadingData) :
    List FuelReading × FuelReading :=
  let row := data.withTimestamp store.length
  (store ++ [row], row)

/-- `getAllLatestReadings` (database.service, lines 48-60): loop over
all tanks in creation order, pushing the latest reading of each tank
that has one. -/
def getAllLatestReadings (tanks : List Tank) (store : List FuelReading) :
    List FuelReading :=
  tanks.foldl
    (fun latestReadings tank =>
      match getLatestReadingForTank tank.id store with
      | some latest => latestReadings ++ [latest]
      | none => latestReadings)
    []

/-- Errors a pipeline operation can raise: the `Tank not found` error
thrown by `triggerManualReading`, and an injected repository write
failure (`prisma.fuelReading.create` rejecting). -/
inductive PipeError
  | notFound (tankId : String)
  | writeFailure
deriving DecidableEq

/-- A fuel-level update event as handed to the subscribers by
`emitFuelLevelUpdate` (fuel-tank.service, lines 142-159); the constant
`type` tag is omitted and the `data` payload kept. -/
structure FuelLevelEvent where
  tankId : String
  tankName : String
  fuelLevelLiters : ℚ
  fuelLevelPercentage : ℚ
  fuelHeight : ℚ
  distanceToFuel : ℚ
  tankCapacity : ℚ
  timestamp : ℕ
  status : FuelStatus
deriving DecidableEq

/-- `emitFuelLevelUpdate` (fuel-tank.service, lines 142-159): build the
event published for a saved reading. -/
def emitFuelLevelUpdate (tank : Tank) (reading : FuelReading) : FuelLevelEvent :=
  { tankId := tank.id
    tankName := tank.name
    fuelLevelLiters := reading.fuelLevelLiters
    fuelLevelPercentage := reading.fuelLevelPercentage
    fuelHeight := reading.fuelHeight
    distanceToFuel := reading.distanceToFuel
    tankCapacity := tank.capacity
    timestamp := reading.timestamp
    status := getFuelStatus reading.fuelLevelPercentage }

/-- The observable result of one pipeline operation: the store after
the call, the events published during the call (in order), and whether
the call returned normally or threw. -/
structure OpResult where
  store : List FuelReading
  events : List FuelLevelEvent
  outcome : Except PipeError Unit

/-- The fuel height fed to the simulator (fuel-tank.service, lines
80-85): the latest persisted height, or `tank.height * 0.5` when the
tank has no reading yet. -/
def currentFuelHeightOf (tank : Tank) (store : List FuelReading) : ℚ :=
  match getLatestReadingForTank tank.id store with
  | some latestReading => latestReading.fuelHeight
  | none => tank.height * 0.5

/-- The three uniform draws consumed by one simulated reading. -/
structure Draws where
  u0 : ℚ
  u1 : ℚ
  u2 : ℚ

/-- `simulateAndProcessReading` (fuel-tank.service, lines 79-108).
`writeFails` injects a repository write failure for the given tank id:
when it holds, `addFuelReading` throws, the store is unchanged and no
event is published (the emit comes after the awaited write). -/
def simulateAndProcessReading (writeFails : String → Bool) (dr : Draws)
    (tank : Tank) (store : List FuelReading) : OpResult :=
  let latestReading := getLatestReadingForTank tank.id store
  let currentFuelHeight := currentFuelHeightOf tank store
  let simulatedDistance :=
    simulateSensorReading tank.id currentFuelHeight tank.height dr.u0 dr.u1 dr.u2
  let readingData := calculateFuelLevel simulatedDistance tank
  if writeFails tank.id then
    { store := store, events := [], outcome := .error .writeFailure }
  else
    let saved := addFuelReading store readingData
    let savedReading := saved.2
    let significantChange : Bool :=
      match latestReading with
      | none => true
      | some prev =>
          decide (|savedReading.fuelLevelPercentage - prev.fuelLevelPercentage| > 0.1)
    { store := saved.1
      events := if significantChange then [emitFuelLevelUpdate tank savedReading] else []
      outcome := .ok () }

/-- One iteration of the `initializeAllTanks` loop (fuel-tank.service,
lines 59-76): if the tank has no reading, derive one from
`getInitialFuelLevel`, persist it and always emit; `u` is the draw of
`getInitialFuelLevel` and `writeFails` injects a write failure. -/
def initializeTank (writeFails : String → Bool) (u : ℚ) (tank : Tank)
    (store : List FuelReading) : OpResult :=
  match getLatestReadingForTank tank.id store with
  | some _ => { store := store, events := [], outcome := .ok () }
  | none =>
    let initialDistance := getInitialFuelLevel tank.height u
    let readingData := calculateFuelLevel initialDistance tank
    if writeFails tank.id then
      { store := store, events := [], outcome := .error .writeFailure }
    else
      let saved := addFuelReading store readingData
      { store := saved.1
        events := [emitFuelLevelUpdate tank saved.2]
        outcome := .ok () }

/-- `performAutomatedReadings` (fuel-tank.service, lines 43-54): the
cron handler awaits `simulateAndProcessReading` for each tank in turn
with no try/catch, so a thrown error propagates and the remaining
tanks are not visited.  `drs` supplies the draws consumed per tank. -/
def performAutomatedReadings (writeFails : String → Bool) (drs : String → Draws) :
    List Tank → List FuelReading → OpResult
  | [], store => { store := store, events := [], outcome := .ok () }
  | tank :: rest, store =>
    let r := simulateAndProcessReading writeFails (drs tank.id) tank store
    match r.outcome with
    | .error e => { store := r.store, events := r.events, outcome := .error e }
    | .ok () =>
      let r2 := performAutomatedReadings writeFails drs rest r.store
      { store := r2.store, events := r.events ++ r2.events, outcome := r2.outcome }

/-- The observable result of `triggerManualReading`: the store and
events after the call, and either the returned reading or the thrown
error. -/
structure ManualResult where
  store : List FuelReading
  events : List FuelLevelEvent
  result : Except PipeError (Option FuelReading)

/-- `triggerManualReading` (fuel-tank.service, lines 170-178): look the
tank up, throw `Tank not found` when absent, otherwise run one
`simulateAndProcessReading` and return `getLatestReading` of the tank. -/
def triggerManualReading (writeFails : String → Bool) (dr : Draws)
    (tankId : String) (tanks : List Tank) (store : List FuelReading) : ManualResult :=
  match getTankById tankId tanks with
  | none => { store := store, events := [], result := .error (.notFound tankId) }
  | some tank =>
    let r := simulateAndProcessReading writeFails dr tank store
    match r.outcome with
    | .error e => { store := r.store, events := r.events, result := .error e }
    | .ok () =>
      { store := r.store
        events := r.events
        result := .ok (getLatestReadingForTank tankId r.store) }

/-! ### Rounding helper lemmas -/

theorem round2_mono {x y : ℚ} (h : x ≤ y) : round2 x ≤ round2 y := by
  unfold round2
  have h1 : (⌊x * 100 + 1 / 2⌋ : ℤ) ≤ ⌊y * 100 + 1 / 2⌋ :=
    Int.floor_le_floor (by linarith)
  have h2 : ((⌊x * 100 + 1 / 2⌋ : ℤ) : ℚ) ≤ ((⌊y * 100 + 1 / 2⌋ : ℤ) : ℚ) := by
    exact_mod_cast h1
  linarith

theorem round2_nonneg {x : ℚ} (hx : 0 ≤ x) : 0 ≤ round2 x := by
  unfold round2
  have h0 : (0 : ℤ) ≤ ⌊x * 100 + 1 / 2⌋ :=
    Int.le_floor.mpr (by push_cast; linarith)
  have h2 : (0 : ℚ) ≤ ((⌊x * 100 + 1 / 2⌋ : ℤ) : ℚ) := by exact_mod_cast h0
  linarith

theorem round2_hundred : round2 100 = 100 := by norm_num [round2]

theorem round3_mono {x y : ℚ} (h : x ≤ y) : round3 x ≤ round3 y := by
  unfold round3
  have h1 : (⌊x * 1000 + 1 / 2⌋ : ℤ) ≤ ⌊y * 1000 + 1 / 2⌋ :=
    Int.floor_le_floor (by linarith)
  have h2 : ((⌊x * 1000 + 1 / 2⌋ : ℤ) : ℚ) ≤ ((⌊y * 1000 + 1 / 2⌋ : ℤ) : ℚ) := by
    exact_mod_cast h1
  linarith

theorem round3_nonneg {x : ℚ} (hx : 0 ≤ x) : 0 ≤ round3 x := by
  unfold round3
  have h0 : (0 : ℤ) ≤ ⌊x * 1000 + 1 / 2⌋ :=
    Int.le_floor.mpr (by push_cast; linarith)
  have h2 : (0 : ℚ) ≤ ((⌊x * 1000 + 1 / 2⌋ : ℤ) : ℚ) := by exact_mod_cast h0
  linarith

theorem mathPI_pos : (0 : ℚ) < mathPI := by norm_num [mathPI]

/-! ### C1 -/

/-- Modelled from the spec wording of the derivation, for comparison
with `calculateFuelLevel`: fuel height `tank.sensorHeight - d / 100`
clamped to `[0, tank.height]`, volume `π (diameter/2)^2 h 1000`,
percentage `volume / capacity * 100`, with distance and volume rounded
to 2 decimals, height to 3, percentage to 2. -/
def deriveReadingSpec (d : ℚ) (tank : Tank) : ReadingData :=
  let fuelHeight := max 0 (min (tank.sensorHeight - d / 100) tank.height)
  let fuelLevelLiters := mathPI * (tank.diameter / 2) ^ 2 * fuelHeight * 1000
  let fuelLevelPercentage := fuelLevelLiters / tank.capacity * 100
  { tankId := tank.id
    distanceToFuel := round2 d
    fuelLevelLiters := round2 fuelLevelLiters
    fuelLevelPercentage := round2 fuelLevelPercentage
    fuelHeight := round3 fuelHeight }

/-- C1: for every tank with positive height and every raw distance, the
derivation computes exactly the specified clamped height, cylindrical
volume and capacity percentage with the 2/2/3/2 rounding policy, and a
clamped fuel height of 0 yields volume 0 and percentage 0 exactly. -/
theorem calculateFuelLevel_spec (tank : Tank) (d : ℚ) (hh : 0 < tank.height) :
    calculateFuelLevel d tank = deriveReadingSpec d tank ∧
    (max 0 (min (tank.sensorHeight - d / 100) tank.height) = 0 →
      (calculateFuelLevel d tank).fuelLevelLiters = 0 ∧
      (calculateFuelLevel d tank).fuelLevelPercentage = 0) := by
  constructor
  · rfl
  · intro h0
    simp only [calculateFuelLevel, calculateCylindricalVolume, h0]
    norm_num [round2]

theorem calculateFuelLevel_spec_witness :
    calculateFuelLevel 50
        { id := "W1", name := "W1", diameter := 2, height := 3,
          capacity := 9425, sensorHeight := 3 } =
      deriveReadingSpec 50
        { id := "W1", name := "W1", diameter := 2, height := 3,
          capacity := 9425, sensorHeight := 3 } :=
  (calculateFuelLevel_spec _ 50 (by norm_num)).1

/-! ### C9 -/

/-- C9: the status classifier is total on ℚ (it is a function defined by
exhaustive threshold cases) and monotone: a strictly smaller percentage
never classifies as more full under critical < low < normal < full. -/
theorem getFuelStatus_monotone (p1 p2 : ℚ) (h : p1 < p2) :
    statusRank (getFuelStatus p1) ≤ statusRank (getFuelStatus p2) := by
  unfold getFuelStatus
  split_ifs <;> simp [statusRank] <;> linarith

theorem getFuelStatus_monotone_witness :
    statusRank (getFuelStatus 5) ≤ statusRank (getFuelStatus 50) :=
  getFuelStatus_monotone 5 50 (by norm_num)

/-! ### C6 -/

/-- C6: scenario selection evaluates the percentage bands top-down with
one uniform draw exactly as specified: below 10 percent refill/emergency
split at 0.7, below 25 refill/consumption split at 0.6, above 75
consumption/stable split at 0.8, and in the middle band consumption
below 0.5, stable below 0.8, refill otherwise. -/
theorem determineScenario_bands (tid : String) (h H u : ℚ) :
    (h / H * 100 < 10 →
      determineScenario tid h H u =
        if u < 0.7 then Scenario.refill else Scenario.emergency) ∧
    (10 ≤ h / H * 100 → h / H * 100 < 25 →
      determineScenario tid h H u =
        if u < 0.6 then Scenario.refill else Scenario.consumption) ∧
    (75 < h / H * 100 →
      determineScenario tid h H u =
        if u < 0.8 then Scenario.consumption else Scenario.stable) ∧
    (25 ≤ h / H * 100 → h / H * 100 ≤ 75 →
      determineScenario tid h H u =
        if u < 0.5 then Scenario.consumption
        else if u < 0.8 then Scenario.stable
        else Scenario.refill) := by
  simp only [determineScenario]
  refine ⟨fun hb => ?_, fun hb1 hb2 => ?_, fun hb => ?_, fun hb1 hb2 => ?_⟩
  · rw [if_pos hb]
  · rw [if_neg (not_lt.mpr (by linarith)), if_pos hb2]
  · rw [if_neg (not_lt.mpr (by linarith)), if_neg (not_lt.mpr (by linarith)),
      if_pos hb]
  · rw [if_neg (not_lt.mpr (by linarith)), if_neg (not_lt.mpr (by linarith)),
      if_neg (not_lt.mpr hb2)]

theorem determineScenario_bands_witness :
    determineScenario "W6" 0.05 1 0.3 =
      if (0.3 : ℚ) < 0.7 then Scenario.refill else Scenario.emergency :=
  (determineScenario_bands "W6" 0.05 1 0.3).1 (by norm_num)

/-! ### C5 -/

/-- C5: for every positive tank height, every current fuel height and
every random draws in [0, 1), the simulated sensor distance lies within
`[0, tankHeight * 100]`: the final clamp makes the output bounded
regardless of the scenario walk. -/
theorem simulateSensorReading_bounded (tid : String) (h H u0 u1 u2 : ℚ)
    (hH : 0 < H) (h00 : 0 ≤ u0) (h01 : u0 < 1) (h10 : 0 ≤ u1) (h11 : u1 < 1)
    (h20 : 0 ≤ u2) (h21 : u2 < 1) :
    0 ≤ simulateSensorReading tid h H u0 u1 u2 ∧
    simulateSensorReading tid h H u0 u1 u2 ≤ H * 100 := by
  obtain ⟨x, hx⟩ :
      ∃ x, simulateSensorReading tid h H u0 u1 u2 = max 0 (min (H * 100) x) := by
    unfold simulateSensorReading generateSensorReading
    exact ⟨_, rfl⟩
  rw [hx]
  refine ⟨le_max_left 0 _, max_le (by nlinarith) (min_le_left _ _)⟩

theorem simulateSensorReading_bounded_witness :
    0 ≤ simulateSensorReading "W5" 0.5 1 0.5 0.5 0.5 ∧
    simulateSensorReading "W5" 0.5 1 0.5 0.5 0.5 ≤ 1 * 100 :=
  simulateSensorReading_bounded "W5" 0.5 1 0.5 0.5 0.5 (by norm_num)
    (by norm_num) (by norm_num) (by norm_num) (by norm_num) (by norm_num)
    (by norm_num)

/-! ### C2 -/

/-- A tank with positive diameter, height and capacity on which the
derivation breaks both claimed invariant bounds: the capacity is far
below the geometric volume, so the percentage exceeds 100, and the
height is below one millimetre, so the 3-decimal rounding pushes the
stored fuel height above the tank height. -/
def c2tank : Tank :=
  { id := "C2", name := "C2", diameter := 2, height := 0.0005,
    capacity := 1, sensorHeight := 0.0005 }

/-- C2 (counterexample): a tank with diameter, height and capacity all
positive and input distance 0 whose derived reading has
fuelLevelPercentage above 100 and fuelHeight above tank.height. -/
theorem reading_invariant_counterexample :
    0 < c2tank.diameter ∧ 0 < c2tank.height ∧ 0 < c2tank.capacity ∧
    ¬ ((calculateFuelLevel 0 c2tank).fuelHeight ≤ c2tank.height) ∧
    ¬ ((calculateFuelLevel 0 c2tank).fuelLevelPercentage ≤ 100) := by
  refine ⟨by norm_num [c2tank], by norm_num [c2tank], by norm_num [c2tank], ?_, ?_⟩
  · norm_num [calculateFuelLevel, calculateCylindricalVolume, c2tank, round3]
  · norm_num [calculateFuelLevel, calculateCylindricalVolume, c2tank, round2,
      mathPI]

/-- C2 (amended): for every tank with positive diameter, height and
capacity and every input distance, the derived reading satisfies
`0 ≤ fuelHeight`, `fuelHeight ≤ round3 tank.height` (so
`fuelHeight ≤ tank.height` whenever the height has at most three
decimal places) and `0 ≤ fuelLevelPercentage`; and whenever the stored
capacity is at least the geometric volume `π (diameter/2)^2 height 1000`
(the data-model consistency invariant), also
`fuelLevelPercentage ≤ 100`. -/
theorem reading_invariant_amended (tank : Tank) (d : ℚ)
    (hd : 0 < tank.diameter) (hh : 0 < tank.height) (hc : 0 < tank.capacity) :
    0 ≤ (calculateFuelLevel d tank).fuelHeight ∧
    (calculateFuelLevel d tank).fuelHeight ≤ round3 tank.height ∧
    0 ≤ (calculateFuelLevel d tank).fuelLevelPercentage ∧
    (mathPI * (tank.diameter / 2) ^ 2 * tank.height * 1000 ≤ tank.capacity →
      (calculateFuelLevel d tank).fuelLevelPercentage ≤ 100) := by
  have hπ := mathPI_pos
  have h0 : 0 ≤ max 0 (min (tank.sensorHeight - d / 100) tank.height) :=
    le_max_left 0 _
  have hH : max 0 (min (tank.sensorHeight - d / 100) tank.height) ≤ tank.height :=
    max_le hh.le (min_le_right _ _)
  have hbase : (0 : ℚ) ≤ mathPI * (tank.diameter / 2) ^ 2 :=
    mul_nonneg hπ.le (sq_nonneg _)
  have hvol0 : (0 : ℚ) ≤
      mathPI * (tank.diameter / 2) ^ 2 *
        (max 0 (min (tank.sensorHeight - d / 100) tank.height)) * 1000 := by
    have := mul_nonneg hbase h0
    linarith
  have hpct0 : (0 : ℚ) ≤
      mathPI * (tank.diameter / 2) ^ 2 *
        (max 0 (min (tank.sensorHeight - d / 100) tank.height)) * 1000 /
        tank.capacity * 100 := by
    have := div_nonneg hvol0 hc.le
    linarith
  simp only [calculateFuelLevel, calculateCylindricalVolume]
  refine ⟨round3_nonneg h0, round3_mono hH, round2_nonneg hpct0, ?_⟩
  intro hcap
  have hvolcap :
      mathPI * (tank.diameter / 2) ^ 2 *
        (max 0 (min (tank.sensorHeight - d / 100) tank.height)) * 1000 ≤
      tank.capacity := by
    have h1 := mul_le_mul_of_nonneg_left hH hbase
    linarith
  have hpct100 :
      mathPI * (tank.diameter / 2) ^ 2 *
        (max 0 (min (tank.sensorHeight - d / 100) tank.height)) * 1000 /
        tank.capacity * 100 ≤ 100 := by
    have h1 := (div_le_one hc).mpr hvolcap
    linarith
  exact le_trans (round2_mono hpct100) round2_hundred.le

theorem reading_invariant_amended_witness :
    0 ≤ (calculateFuelLevel 100
          { id := "W2", name := "W2", diameter := 2, height := 4,
            capacity := 12567, sensorHeight := 4 }).fuelHeight ∧
    (calculateFuelLevel 100
          { id := "W2", name := "W2", diameter := 2, height := 4,
            capacity := 12567, sensorHeight := 4 }).fuelHeight ≤ round3 4 ∧
    0 ≤ (calculateFuelLevel 100
          { id := "W2", name := "W2", diameter := 2, height := 4,
            capacity := 12567, sensorHeight := 4 }).fuelLevelPercentage ∧
    (mathPI * ((2 : ℚ) / 2) ^ 2 * 4 * 1000 ≤ 12567 →
      (calculateFuelLevel 100
          { id := "W2", name := "W2", diameter := 2, height := 4,
            capacity := 12567, sensorHeight := 4 }).fuelLevelPercentage ≤ 100) :=
  reading_invariant_amended _ 100 (by norm_num) (by norm_num) (by norm_num)

/-! ### C3 -/

/-- First seeded tank of the automated-cycle counterexample. -/
def c3tankA : Tank :=
  { id := "A", name := "A", diameter := 2, height := 4, capacity := 12567,
    sensorHeight := 4 }

/-- Second seeded tank of the automated-cycle counterexample. -/
def c3tankB : Tank :=
  { id := "B", name := "B", diameter := 2, height := 4, capacity := 12567,
    sensorHeight := 4 }

/-- A failure schedule injecting a repository write error for tank A only. -/
def c3writeFails : String → Bool := fun id => id == "A"

/-- Fixed draws for the counterexample cycle. -/
def c3draws : String → Draws := fun _ => { u0 := 0.5, u1 := 0.5, u2 := 0.5 }

/-- C3 (counterexample): with two tanks and a write failure on the
first, the automated cycle ends in the error outcome and the store is
still empty — tank B, although healthy and later in the list, was never
processed, refuting the claim that a failure on one tank does not abort
the remaining tanks. -/
theorem automatedCycle_abort_counterexample :
    (performAutomatedReadings c3writeFails c3draws [c3tankA, c3tankB] []).outcome =
      .error .writeFailure ∧
    (performAutomatedReadings c3writeFails c3draws [c3tankA, c3tankB] []).store = [] := by
  constructor <;> rfl

/-- C3 (amended): the cron loop awaits each tick with no per-tank error
handling, so a failure while processing one tank aborts the cycle: the
error propagates and the tanks after the failing one are not processed;
the cycle result is the store and events of the failing tick with the error
outcome. -/
theorem automatedCycle_abort (writeFails : String → Bool) (drs : String → Draws)
    (tank : Tank) (rest : List Tank) (store : List FuelReading) (e : PipeError)
    (hfail : (simulateAndProcessReading writeFails (drs tank.id) tank store).outcome =
      .error e) :
    performAutomatedReadings writeFails drs (tank :: rest) store =
      { store := (simulateAndProcessReading writeFails (drs tank.id) tank store).store
        events := (simulateAndProcessReading writeFails (drs tank.id) tank store).events
        outcome := .error e } := by
  simp only [performAutomatedReadings]
  rw [hfail]

theorem automatedCycle_abort_witness :
    performAutomatedReadings c3writeFails c3draws (c3tankA :: [c3tankB]) [] =
      { store := (simulateAndProcessReading c3writeFails (c3draws c3tankA.id)
          c3tankA []).store
        events := (simulateAndProcessReading c3writeFails (c3draws c3tankA.id)
          c3tankA []).events
        outcome := .error .writeFailure } :=
  automatedCycle_abort c3writeFails c3draws c3tankA [c3tankB] [] .writeFailure rfl

/-! ### C8 -/

/-- C8: every tick and every initialization step publishes at most one
event, and only after the write succeeds: when the repository write
fails the operation ends in the error outcome with the store unchanged
and no event published. -/
theorem emit_after_write (writeFails : String → Bool) (dr : Draws) (u : ℚ)
    (tank : Tank) (store : List FuelReading) :
    (simulateAndProcessReading writeFails dr tank store).events.length ≤ 1 ∧
    (writeFails tank.id = true →
      simulateAndProcessReading writeFails dr tank store =
        { store := store, events := [], outcome := .error .writeFailure }) ∧
    (initializeTank writeFails u tank store).events.length ≤ 1 ∧
    (writeFails tank.id = true →
      (initializeTank writeFails u tank store).events = [] ∧
      (initializeTank writeFails u tank store).store = store) := by
  refine ⟨?_, ?_, ?_, ?_⟩
  · simp only [simulateAndProcessReading]
    split
    · simp
    · split <;> simp
  · intro hw
    simp [simulateAndProcessReading, hw]
  · rcases hl : getLatestReadingForTank tank.id store with _ | prev
    · by_cases hw : writeFails tank.id
      · simp [initializeTank, hl, hw]
      · simp [initializeTank, hl, hw]
    · simp [initializeTank, hl]
  · intro hw
    rcases hl : getLatestReadingForTank tank.id store with _ | prev
    · simp [initializeTank, hl, hw]
    · simp [initializeTank, hl]

theorem emit_after_write_witness :
    (simulateAndProcessReading (fun _ => true)
        { u0 := 0.5, u1 := 0.5, u2 := 0.5 } c3tankA []).events = [] ∧
    (simulateAndProcessReading (fun _ => true)
        { u0 := 0.5, u1 := 0.5, u2 := 0.5 } c3tankA []).store = [] := by
  have h := (emit_after_write (fun _ => true)
    { u0 := 0.5, u1 := 0.5, u2 := 0.5 } 0.5 c3tankA []).2.1 rfl
  rw [h]
  exact ⟨rfl, rfl⟩

/-! ### C4 -/

theorem data_withTimestamp (d : ReadingData) (t : ℕ) :
    (d.withTimestamp t).data = d := rfl

/-- C4: with a healthy repository, every tick persists exactly one new
reading (unconditionally), derives it from the simulator fed with the
latest persisted fuel height — `tank.height * 0.5` when no prior
reading exists — and publishes an event exactly when there was no prior
reading or the percentage moved by more than 0.1. -/
theorem tick_behavior (dr : Draws) (tank : Tank) (store : List FuelReading) :
    ∃ saved : FuelReading,
      (simulateAndProcessReading (fun _ => false) dr tank store).store =
        store ++ [saved] ∧
      (simulateAndProcessReading (fun _ => false) dr tank store).outcome = .ok () ∧
      saved.data =
        calculateFuelLevel
          (simulateSensorReading tank.id (currentFuelHeightOf tank store)
            tank.height dr.u0 dr.u1 dr.u2) tank ∧
      (getLatestReadingForTank tank.id store = none →
        currentFuelHeightOf tank store = tank.height * 0.5) ∧
      ((simulateAndProcessReading (fun _ => false) dr tank store).events ≠ [] ↔
        (getLatestReadingForTank tank.id store = none ∨
          ∃ prev, getLatestReadingForTank tank.id store = some prev ∧
            |saved.fuelLevelPercentage - prev.fuelLevelPercentage| > 0.1)) := by
  refine ⟨(calculateFuelLevel
      (simulateSensorReading tank.id (currentFuelHeightOf tank store)
        tank.height dr.u0 dr.u1 dr.u2) tank).withTimestamp store.length,
    rfl, rfl, rfl, ?_, ?_⟩
  · intro h
    simp [currentFuelHeightOf, h]
  · rcases hl : getLatestReadingForTank tank.id store with _ | prev
    · simp [simulateAndProcessReading, hl, emitFuelLevelUpdate, addFuelReading]
    · by_cases hp :
        |((calculateFuelLevel
            (simulateSensorReading tank.id (currentFuelHeightOf tank store)
              tank.height dr.u0 dr.u1 dr.u2) tank).withTimestamp
            store.length).fuelLevelPercentage - prev.fuelLevelPercentage| > 0.1
      · simp [simulateAndProcessReading, hl, addFuelReading, hp]
      · simp [simulateAndProcessReading, hl, addFuelReading, hp]

theorem tick_behavior_witness :
    ∃ saved : FuelReading,
      (simulateAndProcessReading (fun _ => false)
          { u0 := 0.5, u1 := 0.5, u2 := 0.5 }
          { id := "W4", name := "W4", diameter := 2, height := 4,
            capacity := 12567, sensorHeight := 4 } []).store = [] ++ [saved] ∧
      (simulateAndProcessReading (fun _ => false)
          { u0 := 0.5, u1 := 0.5, u2 := 0.5 }
          { id := "W4", name := "W4", diameter := 2, height := 4,
            capacity := 12567, sensorHeight := 4 } []).outcome = .ok () ∧
      saved.data =
        calculateFuelLevel
          (simulateSensorReading "W4"
            (currentFuelHeightOf
              { id := "W4", name := "W4", diameter := 2, height := 4,
                capacity := 12567, sensorHeight := 4 } [])
            4 0.5 0.5 0.5)
          { id := "W4", name := "W4", diameter := 2, height := 4,
            capacity := 12567, sensorHeight := 4 } ∧
      (getLatestReadingForTank "W4" [] = none →
        currentFuelHeightOf
          { id := "W4", name := "W4", diameter := 2, height := 4,
            capacity := 12567, sensorHeight := 4 } [] = 4 * 0.5) ∧
      ((simulateAndProcessReading (fun _ => false)
          { u0 := 0.5, u1 := 0.5, u2 := 0.5 }
          { id := "W4", name := "W4", diameter := 2, height := 4,
            capacity := 12567, sensorHeight := 4 } []).events ≠ [] ↔
        (getLatestReadingForTank "W4" [] = none ∨
          ∃ prev, getLatestReadingForTank "W4" [] = some prev ∧
            |saved.fuelLevelPercentage - prev.fuelLevelPercentage| > 0.1)) :=
  tick_behavior { u0 := 0.5, u1 := 0.5, u2 := 0.5 }
    { id := "W4", name := "W4", diameter := 2, height := 4,
      capacity := 12567, sensorHeight := 4 } []

/-! ### C7 -/

theorem getLatestReadingForTank_concat (tid : String) (store : List FuelReading)
    (r : FuelReading) (h : r.tankId = tid) :
    getLatestReadingForTank tid (store ++ [r]) = some r := by
  simp [getLatestReadingForTank, List.filter_append, h]

/-- C7: a manual trigger for an id absent from the tank table throws the
not-found error and leaves the reading store untouched; for an existing
tank (with a healthy repository) it performs exactly one tick — one new
persisted reading — and returns that freshly persisted reading. -/
theorem triggerManualReading_spec (writeFails : String → Bool) (dr : Draws)
    (tankId : String) (tanks : List Tank) (store : List FuelReading) :
    (getTankById tankId tanks = none →
      triggerManualReading writeFails dr tankId tanks store =
        { store := store, events := [], result := .error (.notFound tankId) }) ∧
    (∀ tank, getTankById tankId tanks = some tank →
      ∃ saved : FuelReading,
        (simulateAndProcessReading (fun _ => false) dr tank store).store =
          store ++ [saved] ∧
        triggerManualReading (fun _ => false) dr tankId tanks store =
          { store := store ++ [saved]
            events := (simulateAndProcessReading (fun _ => false) dr tank store).events
            result := .ok (some saved) }) := by
  constructor
  · intro h
    simp [triggerManualReading, h]
  · intro tank htank
    have htid : tank.id = tankId := by
      have := List.find?_some htank
      simpa using this
    refine ⟨(calculateFuelLevel
        (simulateSensorReading tank.id (currentFuelHeightOf tank store)
          tank.height dr.u0 dr.u1 dr.u2) tank).withTimestamp store.length,
      rfl, ?_⟩
    have hlatest : getLatestReadingForTank tankId
        (store ++ [(calculateFuelLevel
          (simulateSensorReading tank.id (currentFuelHeightOf tank store)
            tank.height dr.u0 dr.u1 dr.u2) tank).withTimestamp store.length]) =
        some ((calculateFuelLevel
          (simulateSensorReading tank.id (currentFuelHeightOf tank store)
            tank.height dr.u0 dr.u1 dr.u2) tank).withTimestamp store.length) :=
      getLatestReadingForTank_concat tankId store _ htid
    have hred : triggerManualReading (fun _ => false) dr tankId tanks store =
        { store := store ++ [(calculateFuelLevel
            (simulateSensorReading tank.id (currentFuelHeightOf tank store)
              tank.height dr.u0 dr.u1 dr.u2) tank).withTimestamp store.length]
          events := (simulateAndProcessReading (fun _ => false) dr tank store).events
          result := .ok (getLatestReadingForTank tankId
            (store ++ [(calculateFuelLevel
              (simulateSensorReading tank.id (currentFuelHeightOf tank store)
                tank.height dr.u0 dr.u1 dr.u2) tank).withTimestamp store.length])) } := by
      simp only [triggerManualReading, htank]
      rfl
    rw [hred, hlatest]

theorem triggerManualReading_spec_witness :
    triggerManualReading (fun _ => true) { u0 := 0.5, u1 := 0.5, u2 := 0.5 }
        "MISSING" [] [] =
      { store := [], events := [], result := .error (.notFound "MISSING") } :=
  (triggerManualReading_spec (fun _ => true)
    { u0 := 0.5, u1 := 0.5, u2 := 0.5 } "MISSING" [] []).1 rfl

/-! ### C10 -/

theorem getAllLatestReadings_eq_filterMap (tanks : List Tank)
    (store : List FuelReading) :
    getAllLatestReadings tanks store =
      tanks.filterMap (fun t => getLatestReadingForTank t.id store) := by
  have key : ∀ (ts : List Tank) (acc : List FuelReading),
      ts.foldl
        (fun latestReadings tank =>
          match getLatestReadingForTank tank.id store with
          | some latest => latestReadings ++ [latest]
          | none => latestReadings) acc =
      acc ++ ts.filterMap (fun t => getLatestReadingForTank t.id store) := by
    intro ts
    induction ts with
    | nil => intro acc; simp
    | cons t ts ih =>
      intro acc
      rcases h : getLatestReadingForTank t.id store with _ | r <;>
        simp [List.filterMap_cons, h, ih]
  simpa [getAllLatestReadings] using key tanks []

theorem getLatestReadingForTank_latest (tid : String) (store : List FuelReading)
    (hs : store.Pairwise (fun a b => a.timestamp < b.timestamp)) (r : FuelReading)
    (hr : getLatestReadingForTank tid store = some r) :
    r ∈ store ∧ r.tankId = tid ∧
      ∀ q ∈ store, q.tankId = tid → q.timestamp ≤ r.timestamp := by
  induction store using List.reverseRecOn with
  | nil => simp [getLatestReadingForTank] at hr
  | append_singleton l a ih =>
    rw [List.pairwise_append] at hs
    obtain ⟨hsl, -, hlast⟩ := hs
    by_cases ha : a.tankId = tid
    · have hra : r = a := by
        rw [getLatestReadingForTank_concat tid l a ha] at hr
        exact (Option.some_injective _ hr).symm
      subst hra
      refine ⟨by simp, ha, ?_⟩
      intro q hq hqt
      rcases List.mem_append.mp hq with hql | hqa
      · exact (hlast q hql r (by simp)).le
      · simp only [List.mem_singleton] at hqa
        exact hqa ▸ le_refl _
    · have hfa : getLatestReadingForTank tid (l ++ [a]) =
          getLatestReadingForTank tid l := by
        simp [getLatestReadingForTank, List.filter_append, ha]
      rw [hfa] at hr
      obtain ⟨hmem, htid, hbound⟩ := ih hsl hr
      refine ⟨List.mem_append.mpr (Or.inl hmem), htid, ?_⟩
      intro q hq hqt
      rcases List.mem_append.mp hq with hql | hqa
      · exact hbound q hql hqt
      · simp only [List.mem_singleton] at hqa
        exact absurd (hqa ▸ hqt) ha

theorem getLatestReadingForTank_none (tid : String) (store : List FuelReading)
    (h : getLatestReadingForTank tid store = none) :
    ∀ q ∈ store, q.tankId ≠ tid := by
  have hnil : store.filter (fun r => r.tankId = tid) = [] := by
    simpa [getLatestReadingForTank] using h
  simpa [List.filter_eq_nil_iff] using hnil

/-- C10: over a store sorted by timestamp (as maintained by the
repository), `getAllLatestReadings` returns exactly one reading per
tank that has at least one reading — namely the one with the greatest
timestamp — in the creation order of the tanks, and silently omits tanks with
no readings instead of failing. -/
theorem getAllLatestReadings_spec (tanks : List Tank) (store : List FuelReading)
    (hs : store.Pairwise (fun a b => a.timestamp < b.timestamp)) :
    getAllLatestReadings tanks store =
      tanks.filterMap (fun t => getLatestReadingForTank t.id store) ∧
    (∀ t ∈ tanks, ∀ r, getLatestReadingForTank t.id store = some r →
      r ∈ store ∧ r.tankId = t.id ∧
        ∀ q ∈ store, q.tankId = t.id → q.timestamp ≤ r.timestamp) ∧
    (∀ t ∈ tanks, getLatestReadingForTank t.id store = none →
      ∀ q ∈ store, q.tankId ≠ t.id) := by
  refine ⟨getAllLatestReadings_eq_filterMap tanks store, ?_, ?_⟩
  · intro t ht r hr
    exact getLatestReadingForTank_latest t.id store hs r hr
  · intro t ht h
    exact getLatestReadingForTank_none t.id store h

/-- Tank with readings for the C10 witness. -/
def w10t1 : Tank :=
  { id := "T1", name := "T1", diameter := 2, height := 4, capacity := 12567,
    sensorHeight := 4 }

/-- Tank without readings for the C10 witness. -/
def w10t2 : Tank :=
  { id := "T2", name := "T2", diameter := 2, height := 4, capacity := 12567,
    sensorHeight := 4 }

/-- Older reading of tank T1 for the C10 witness. -/
def w10ra : FuelReading :=
  { tankId := "T1", distanceToFuel := 100, fuelLevelLiters := 9425,
    fuelLevelPercentage := 75, fuelHeight := 3, timestamp := 0 }

/-- Newer reading of tank T1 for the C10 witness. -/
def w10rb : FuelReading :=
  { tankId := "T1", distanceToFuel := 120, fuelLevelLiters := 9000,
    fuelLevelPercentage := 71.62, fuelHeight := 2.8, timestamp := 1 }

theorem getAllLatestReadings_spec_witness :
    getAllLatestReadings [w10t1, w10t2] [w10ra, w10rb] =
      [w10t1, w10t2].filterMap
        (fun t => getLatestReadingForTank t.id [w10ra, w10rb]) :=
  (getAllLatestReadings_spec [w10t1, w10t2] [w10ra, w10rb]
    (by simp [w10ra, w10rb])).1
